import Mathlib

/-!
Shallow embedding of the Daily-Work habit tracker (src/types.ts and the
application component in src/unnamed/part_000).

The persistent application state (`AppState`) holds a profile, a template
catalog, and a mapping from ISO date keys to daily records.  The JavaScript
object `records` keyed by date is embedded as an association list
`List (String × DailyRecord)`; the spread update
`{...prev.records, [selectedDate]: record}` replaces the value at an existing
key in place and appends a fresh key at the end, which `insertRecord` mirrors.
Numbers are embedded as `Nat` (task points are non-negative integers by the
data model) and the floating-point progress percentage as `ℚ`.
-/

/-- TaskInstance from src/types.ts: a template (id, name, points) plus a
completion flag. -/
structure TaskInstance where
  id : String
  name : String
  points : Nat
  completed : Bool
deriving DecidableEq, Repr

/-- TaskTemplate from src/types.ts. -/
structure TaskTemplate where
  id : String
  name : String
  points : Nat
deriving DecidableEq, Repr

/-- The five named prayer flags of a DailyRecord. -/
structure Prayers where
  fajr : Bool
  dhuhr : Bool
  asr : Bool
  maghrib : Bool
  isha : Bool
deriving DecidableEq, Repr

/-- DailyRecord from src/types.ts.  Optional JS fields become `Option`. -/
structure DailyRecord where
  date : String
  tasks : List TaskInstance
  totalPointsEarned : Nat
  maxPointsPossible : Nat
  customQuote : Option String
  reportComment : Option String
  prayers : Option Prayers
deriving DecidableEq, Repr

/-- UserProfile from src/types.ts. -/
structure UserProfile where
  name : String
  avatar : String
  totalPoints : Nat
  streak : Nat
deriving DecidableEq, Repr

/-- AppState from src/types.ts; `records` is the date-keyed mapping. -/
structure AppState where
  profile : UserProfile
  templates : List TaskTemplate
  records : List (String × DailyRecord)
  darkMode : Bool
deriving DecidableEq, Repr

/-- DEFAULT_TEMPLATES from the constants module. -/
def DEFAULT_TEMPLATES : List TaskTemplate :=
  [ { id := "1", name := "Morning Meditation", points := 10 },
    { id := "2", name := "Deep Work (2 Hours)", points := 20 },
    { id := "3", name := "Physical Exercise", points := 15 },
    { id := "4", name := "Read 10 Pages", points := 10 },
    { id := "5", name := "Healthy Meal Prep", points := 15 },
    { id := "6", name := "Evening Review", points := 5 } ]

/-- INITIAL_PROFILE from the constants module. -/
def INITIAL_PROFILE : UserProfile :=
  { name := "Alex Rivera",
    avatar := "https://picsum.photos/id/64/200/200",
    totalPoints := 0,
    streak := 5 }

/-- The default AppState built when no saved state exists (App useState
initializer); `prefersDark` stands for the matchMedia query result. -/
def initialState (prefersDark : Bool) : AppState :=
  { profile := INITIAL_PROFILE,
    templates := DEFAULT_TEMPLATES,
    records := [],
    darkMode := prefersDark }

/-- Reading `state.records[d]` on the JS object: the value at key `d` if
present. -/
def lookupRecord (records : List (String × DailyRecord)) (d : String) :
    Option DailyRecord :=
  (records.find? (fun p => p.1 == d)).map Prod.snd

/-- The spread update `{...records, [d]: r}` on the JS object: replace the
value at an existing key `d`, otherwise append the new key at the end. -/
def insertRecord (records : List (String × DailyRecord)) (d : String)
    (r : DailyRecord) : List (String × DailyRecord) :=
  if records.any (fun p => p.1 == d) then
    records.map (fun p => if p.1 == d then (p.1, r) else p)
  else
    records ++ [(d, r)]

/-- `record.tasks.reduce((acc, t) => acc + (t.completed ? t.points : 0), 0)`
from updateRecord. -/
def sumCompletedPoints (tasks : List TaskInstance) : Nat :=
  tasks.foldl (fun acc t => acc + (if t.completed then t.points else 0)) 0

/-- `record.tasks.reduce((acc, t) => acc + t.points, 0)` from updateRecord. -/
def sumAllPoints (tasks : List TaskInstance) : Nat :=
  tasks.foldl (fun acc t => acc + t.points) 0

/-- `(totalPointsEarned / (maxPointsPossible || 1)) * 100` from updateRecord;
the JS `|| 1` substitutes 1 exactly when the denominator is the falsy 0. -/
def progressPerc (earned maxP : Nat) : ℚ :=
  ((earned : ℚ) / (if maxP = 0 then (1 : ℚ) else (maxP : ℚ))) * 100

/-- getReportComment from the source: the five-tier comment chain keyed on the
progress percentage. -/
def getReportComment (progress : ℚ) : String :=
  if progress = 0 then
    "The canvas is empty, but the potential is infinite. Let\x27s make a mark tomorrow. 🌙"
  else if progress < 30 then
    "Seed sower. Every great journey begins with these first small, intentional steps. 🌱"
  else if progress < 60 then
    "Momentum builder. You\x27re carving a path through the noise. Keep going. 🌊"
  else if progress < 100 then
    "Peak performer! You are breathing the rare air of high productivity. 🚀"
  else
    "Zenith Master! Today, you achieved absolute alignment. You are unstoppable. 💎"

/-- The record-level part of updateRecord: recompute totalPointsEarned,
maxPointsPossible and reportComment from the task list.  The source assigns
the two sums into the record first and then derives the comment from them;
writing the sums inline gives the same record value. -/
def updateRecordFields (record : DailyRecord) : DailyRecord :=
  { record with
    totalPointsEarned := sumCompletedPoints record.tasks,
    maxPointsPossible := sumAllPoints record.tasks,
    reportComment := some (getReportComment
      (progressPerc (sumCompletedPoints record.tasks) (sumAllPoints record.tasks))) }

/-- updateRecord from the source: the commit choke point.  Recomputes the
derived fields and stores the record in the mapping at the key `selectedDate`
(the component state variable, passed here explicitly). -/
def updateRecord (s : AppState) (selectedDate : String) (record : DailyRecord) :
    AppState :=
  { s with records := insertRecord s.records selectedDate (updateRecordFields record) }

/-- currentRecord from the source (useMemo): the stored record for the
selected date if present, otherwise a record synthesized from the template
catalog with every task uncompleted. -/
def currentRecord (s : AppState) (selectedDate : String) : DailyRecord :=
  match lookupRecord s.records selectedDate with
  | some r => r
  | none =>
    { date := selectedDate,
      tasks := s.templates.map
        (fun t => { id := t.id, name := t.name, points := t.points, completed := false }),
      totalPointsEarned := 0,
      maxPointsPossible := s.templates.foldl (fun acc t => acc + t.points) 0,
      customQuote := none,
      reportComment := none,
      prayers := some { fajr := false, dhuhr := false, asr := false,
                        maghrib := false, isha := false } }

/-- Flip the completion flag of the first task whose id matches, as
`findIndex` followed by an in-place flip at that index does in toggleTask. -/
def toggleById (tasks : List TaskInstance) (taskId : String) : List TaskInstance :=
  match tasks with
  | [] => []
  | t :: ts =>
    if t.id == taskId then { t with completed := !t.completed } :: ts
    else t :: toggleById ts taskId

/-- toggleTask from the source: `findIndex` on the current record's tasks,
early return when the id is absent (index -1), otherwise flip and commit. -/
def toggleTask (s : AppState) (selectedDate taskId : String) : AppState :=
  if (currentRecord s selectedDate).tasks.any (fun t => t.id == taskId) then
    updateRecord s selectedDate
      { currentRecord s selectedDate with
        tasks := toggleById (currentRecord s selectedDate).tasks taskId }
  else s

/-- The five prayer names selectable in togglePrayer. -/
inductive PrayerName where
  | fajr
  | dhuhr
  | asr
  | maghrib
  | isha
deriving DecidableEq, Repr

/-- Flip one named flag of the prayers object. -/
def togglePrayerFlags (ps : Prayers) : PrayerName → Prayers
  | .fajr => { ps with fajr := !ps.fajr }
  | .dhuhr => { ps with dhuhr := !ps.dhuhr }
  | .asr => { ps with asr := !ps.asr }
  | .maghrib => { ps with maghrib := !ps.maghrib }
  | .isha => { ps with isha := !ps.isha }

/-- togglePrayer from the source: default the prayers object to all-false when
unset, flip the named flag, commit. -/
def togglePrayer (s : AppState) (selectedDate : String) (p : PrayerName) : AppState :=
  updateRecord s selectedDate
    { currentRecord s selectedDate with
      prayers := some (togglePrayerFlags
        ((currentRecord s selectedDate).prayers.getD
          { fajr := false, dhuhr := false, asr := false, maghrib := false, isha := false }) p) }

/-- The `Partial TaskInstance` update object merged over a task in
updateTaskInstance (the fields the UI edits). -/
structure TaskUpdate where
  name : Option String
  points : Option Nat
  completed : Option Bool
deriving DecidableEq, Repr

/-- The JS object spread `{...t, ...updates}`: fields present in the update
win. -/
def applyTaskUpdate (t : TaskInstance) (u : TaskUpdate) : TaskInstance :=
  { id := t.id,
    name := u.name.getD t.name,
    points := u.points.getD t.points,
    completed := u.completed.getD t.completed }

/-- updateTaskInstance from the source: merge the update into every task with
the matching id, then commit. -/
def updateTaskInstance (s : AppState) (selectedDate taskId : String)
    (u : TaskUpdate) : AppState :=
  updateRecord s selectedDate
    { currentRecord s selectedDate with
      tasks := (currentRecord s selectedDate).tasks.map
        (fun t => if t.id == taskId then applyTaskUpdate t u else t) }

/-- deleteTaskInstance from the source: drop every task with the matching id,
then commit. -/
def deleteTaskInstance (s : AppState) (selectedDate taskId : String) : AppState :=
  updateRecord s selectedDate
    { currentRecord s selectedDate with
      tasks := (currentRecord s selectedDate).tasks.filter (fun t => !(t.id == taskId)) }

/-- The Define Goal onClick handler: build a new TaskInstance whose id is the
string produced by `Math.random().toString(36).substr(2, 9)` (an external
random source, passed here as `newId`), append it, and commit. -/
def addTask (s : AppState) (selectedDate newId : String) : AppState :=
  updateRecord s selectedDate
    { currentRecord s selectedDate with
      tasks := (currentRecord s selectedDate).tasks ++
        [{ id := newId, name := "New Objective 💎", points := 10, completed := false }] }

/-- The quote textarea onChange handler: store the current record with the
typed text as customQuote directly into the mapping (no recomputation). -/
def setCustomQuote (s : AppState) (selectedDate text : String) : AppState :=
  { s with records := insertRecord s.records selectedDate
              ({ currentRecord s selectedDate with customQuote := some text }) }

/-- JS truthiness of the guard `!currentRecord.customQuote`: an absent quote
and the empty string are both falsy. -/
def quoteIsFalsy : Option String → Bool
  | none => true
  | some q => q == ""

/-- The launch-time guard of the fetchQuote effect: the effect body runs
exactly when the currently viewed record has no (truthy) customQuote. -/
def fetchQuoteGuard (s : AppState) (selectedDate : String) : Bool :=
  quoteIsFalsy (currentRecord s selectedDate).customQuote

/-- The completion action of the fetchQuote effect: when the asynchronous
response `q` arrives, the setState updater runs against the then-current
state `s`, but `selectedDate` and `snapshotRecord` are the values the effect
closure captured when it launched; the captured record plus the fetched quote
is written unconditionally. -/
def applyFetchedQuote (s : AppState) (selectedDate : String)
    (snapshotRecord : DailyRecord) (q : String) : AppState :=
  { s with records := insertRecord s.records selectedDate
              ({ snapshotRecord with customQuote := some q }) }

/-- clearAllRecords from the source, after the window.confirm gate owned by
the caller: one setState that empties the mapping and zeroes both profile
counters. -/
def clearAllRecords (s : AppState) : AppState :=
  { s with
    records := [],
    profile := { s.profile with totalPoints := 0, streak := 0 } }

/-- Lexicographic comparison of character sequences by codepoint, the order
`localeCompare` induces on the ASCII date keys. -/
def charListLe : List Char → List Char → Bool
  | [], _ => true
  | _ :: _, [] => false
  | a :: as, b :: bs =>
    if a.toNat < b.toNat then true
    else if b.toNat < a.toNat then false
    else charListLe as bs

/-- `a.localeCompare(b) <= 0` on date keys: lexicographic string order. -/
def dateLe (a b : String) : Bool := charListLe a.data b.data

/-- Stable insertion of a record into a date-ascending list, modelling one
step of `Array.sort((a, b) => a.date.localeCompare(b.date))`. -/
def insertByDate (r : DailyRecord) : List DailyRecord → List DailyRecord
  | [] => [r]
  | x :: xs => if dateLe x.date r.date then x :: insertByDate r xs else r :: x :: xs

/-- `Object.values(state.records).sort(...)` by ascending date key. -/
def sortByDate : List DailyRecord → List DailyRecord
  | [] => []
  | x :: xs => insertByDate x (sortByDate xs)

/-- `allRecords.reduce((acc, r) => acc + (r.totalPointsEarned || 0), 0)`; with
points embedded as `Nat` the JS `|| 0` null-guard is the identity. -/
def sumTotals (l : List DailyRecord) : Nat :=
  l.foldl (fun acc r => acc + r.totalPointsEarned) 0

/-- JS Math.round on the non-negative values produced here: floor of x + 1/2
(halves round up). -/
def jsRound (x : ℚ) : Int :=
  Int.floor (x + 1 / 2)

/-- avgScore from the stats useMemo: 0 when the (sorted) record list is empty,
otherwise Math.round of the sum of totalPointsEarned over its length. -/
def avgScore (s : AppState) : Int :=
  if (sortByDate (s.records.map Prod.snd)).length = 0 then 0
  else jsRound ((sumTotals (sortByDate (s.records.map Prod.snd)) : ℚ) /
    ((sortByDate (s.records.map Prod.snd)).length : ℚ))

/-- Spec-side definition (for the refinement claim about report comments): the
progress formula written as the spec words it,
`100 * totalPointsEarned / max(maxPointsPossible, 1)`. -/
def specProgressPercent (earned maxP : Nat) : ℚ :=
  100 * (earned : ℚ) / ((max maxP 1 : Nat) : ℚ)

/-- The five comment tiers named in the spec's report-comment table. -/
inductive Tier where
  | emptyCanvas
  | seedSower
  | momentumBuilder
  | peakPerformer
  | zenithMaster
deriving DecidableEq, Repr

/-- Spec-side definition: the tier table from the spec, with the stated
interval for each row; the final else corresponds to the `== 100` row (the
only remaining case for a progress value produced by commit, which always
lies in [0, 100]). -/
def specTier (p : ℚ) : Tier :=
  if p = 0 then .emptyCanvas
  else if 0 < p ∧ p < 30 then .seedSower
  else if 30 ≤ p ∧ p < 60 then .momentumBuilder
  else if 60 ≤ p ∧ p < 100 then .peakPerformer
  else .zenithMaster

/-- The comment string the source emits for each tier. -/
def tierString : Tier → String
  | .emptyCanvas =>
    "The canvas is empty, but the potential is infinite. Let\x27s make a mark tomorrow. 🌙"
  | .seedSower =>
    "Seed sower. Every great journey begins with these first small, intentional steps. 🌱"
  | .momentumBuilder =>
    "Momentum builder. You\x27re carving a path through the noise. Keep going. 🌊"
  | .peakPerformer =>
    "Peak performer! You are breathing the rare air of high productivity. 🚀"
  | .zenithMaster =>
    "Zenith Master! Today, you achieved absolute alignment. You are unstoppable. 💎"

/-- The two derived-sum invariants of a DailyRecord stated in the spec. -/
def recordInvariant (r : DailyRecord) : Prop :=
  r.totalPointsEarned = sumCompletedPoints r.tasks ∧
  r.maxPointsPossible = sumAllPoints r.tasks

instance (r : DailyRecord) : Decidable (recordInvariant r) := by
  unfold recordInvariant
  infer_instance

/-! ## Lemmas about the records mapping -/

theorem lookupRecord_map_replace (d : String) (r : DailyRecord) :
    ∀ recs : List (String × DailyRecord), recs.any (fun q => q.1 == d) = true →
      lookupRecord (recs.map (fun q => if q.1 == d then (q.1, r) else q)) d = some r := by
  intro recs
  induction recs with
  | nil => simp
  | cons q qs ih =>
    intro h
    by_cases hq : (q.1 == d) = true
    · have hf : (if q.1 == d then (q.1, r) else q) = (q.1, r) := by rw [if_pos hq]
      unfold lookupRecord
      rw [List.map_cons, hf]
      simp [List.find?, hq]
    · have hqf : (q.1 == d) = false := by simpa using hq
      have h2 : qs.any (fun p => p.1 == d) = true := by
        simpa [List.any_cons, hqf] using h
      have hf : (if q.1 == d then (q.1, r) else q) = q := by rw [if_neg (by simp [hqf])]
      have h3 := ih h2
      unfold lookupRecord at h3 ⊢
      rw [List.map_cons, hf]
      simpa [List.find?, hqf] using h3

theorem lookupRecord_append_new (d : String) (r : DailyRecord) :
    ∀ recs : List (String × DailyRecord), recs.any (fun q => q.1 == d) = false →
      lookupRecord (recs ++ [(d, r)]) d = some r := by
  intro recs
  induction recs with
  | nil =>
    intro _
    unfold lookupRecord
    rw [List.nil_append]
    simp [List.find?]
  | cons q qs ih =>
    intro h
    rw [List.any_cons, Bool.or_eq_false_iff] at h
    have h3 := ih h.2
    unfold lookupRecord at h3 ⊢
    rw [List.cons_append]
    simpa [List.find?, h.1] using h3

theorem lookupRecord_insertRecord (recs : List (String × DailyRecord)) (d : String)
    (r : DailyRecord) : lookupRecord (insertRecord recs d r) d = some r := by
  unfold insertRecord
  split
  next h => exact lookupRecord_map_replace d r recs h
  next h =>
    have hb : recs.any (fun q => q.1 == d) = false := by
      cases hb2 : recs.any (fun q => q.1 == d)
      · rfl
      · exact absurd hb2 h
    exact lookupRecord_append_new d r recs hb

theorem mem_insertRecord {recs : List (String × DailyRecord)} {d : String}
    {r : DailyRecord} {q : String × DailyRecord} (hq : q ∈ insertRecord recs d r) :
    q ∈ recs ∨ q.2 = r := by
  unfold insertRecord at hq
  split at hq
  · obtain ⟨p, hp, hpq⟩ := List.mem_map.mp hq
    by_cases hpd : p.1 == d
    · right
      rw [← hpq]
      simp [hpd]
    · left
      rw [← hpq]
      simpa [hpd] using hp
  · rcases List.mem_append.mp hq with h | h
    · exact Or.inl h
    · right
      simp only [List.mem_singleton] at h
      rw [h]

theorem currentRecord_updateRecord (s : AppState) (d : String) (r : DailyRecord) :
    currentRecord (updateRecord s d r) d = updateRecordFields r := by
  unfold currentRecord
  rw [show (updateRecord s d r).records = insertRecord s.records d (updateRecordFields r)
        from rfl,
      lookupRecord_insertRecord]

/-! ## Lemmas about task-list operations -/

theorem toggleById_any (taskId : String) (ts : List TaskInstance) :
    (toggleById ts taskId).any (fun t => t.id == taskId) =
      ts.any (fun t => t.id == taskId) := by
  induction ts with
  | nil => rfl
  | cons t ts ih =>
    by_cases h : t.id == taskId
    · simp [toggleById, h]
    · simp [toggleById, List.any_cons, h, ih]

theorem toggleById_toggleById (taskId : String) :
    ∀ ts : List TaskInstance, toggleById (toggleById ts taskId) taskId = ts := by
  intro ts
  induction ts with
  | nil => rfl
  | cons t ts ih =>
    by_cases h : t.id == taskId
    · simp [toggleById, h, Bool.not_not]
    · simp [toggleById, h, ih]

theorem updateRecordFields_idem (r : DailyRecord) :
    updateRecordFields (updateRecordFields r) = updateRecordFields r := rfl

/-! ## Lemmas about the point sums and the progress formula -/

theorem foldl_add_map {α : Type} (f : α → Nat) :
    ∀ (l : List α) (n : Nat),
      l.foldl (fun acc t => acc + f t) n = n + (l.map f).sum := by
  intro l
  induction l with
  | nil => intro n; simp
  | cons t ts ih => intro n; simp [List.foldl_cons, ih, Nat.add_assoc]

theorem sumCompletedPoints_eq (ts : List TaskInstance) :
    sumCompletedPoints ts = (ts.map (fun t => if t.completed then t.points else 0)).sum := by
  simpa using foldl_add_map (fun t => if t.completed then t.points else 0) ts 0

theorem sumAllPoints_eq (ts : List TaskInstance) :
    sumAllPoints ts = (ts.map (fun t => t.points)).sum := by
  simpa using foldl_add_map (fun t => t.points) ts 0

theorem sumCompletedPoints_le_sumAllPoints (ts : List TaskInstance) :
    sumCompletedPoints ts ≤ sumAllPoints ts := by
  rw [sumCompletedPoints_eq, sumAllPoints_eq]
  exact List.sum_le_sum (fun t _ => by by_cases h : t.completed <;> simp [h])

theorem progressPerc_eq_spec (earned maxP : Nat) :
    progressPerc earned maxP = specProgressPercent earned maxP := by
  unfold progressPerc specProgressPercent
  by_cases h : maxP = 0
  · subst h
    norm_num
    ring
  · have h1 : max maxP 1 = maxP := Nat.max_eq_left (Nat.one_le_iff_ne_zero.mpr h)
    rw [if_neg h, h1]
    ring

theorem specProgressPercent_nonneg (earned maxP : Nat) :
    0 ≤ specProgressPercent earned maxP := by
  unfold specProgressPercent
  positivity

theorem getReportComment_eq_tierString (p : ℚ) (hp : 0 ≤ p) :
    getReportComment p = tierString (specTier p) := by
  unfold getReportComment specTier
  by_cases h0 : p = 0
  · simp [h0, tierString]
  · have hpos : 0 < p := lt_of_le_of_ne hp (Ne.symm h0)
    by_cases h30 : p < 30
    · simp [h0, h30, hpos, tierString]
    · by_cases h60 : p < 60
      · simp [h0, h30, h60, not_lt.mp h30, tierString]
      · by_cases h100 : p < 100
        · simp [h0, h30, h60, h100, not_lt.mp h60, tierString]
        · simp [h0, h30, h60, h100, tierString]

/-! ## Lemmas about the statistics sort -/

theorem insertByDate_perm (r : DailyRecord) :
    ∀ l : List DailyRecord, (insertByDate r l).Perm (r :: l) := by
  intro l
  induction l with
  | nil => exact List.Perm.refl _
  | cons x xs ih =>
    by_cases h : dateLe x.date r.date
    · have : insertByDate r (x :: xs) = x :: insertByDate r xs := by
        simp [insertByDate, h]
      rw [this]
      exact (ih.cons x).trans (List.Perm.swap r x xs)
    · have : insertByDate r (x :: xs) = r :: x :: xs := by
        simp [insertByDate, h]
      rw [this]

theorem sortByDate_perm : ∀ l : List DailyRecord, (sortByDate l).Perm l := by
  intro l
  induction l with
  | nil => exact List.Perm.refl _
  | cons x xs ih => exact (insertByDate_perm x (sortByDate xs)).trans (ih.cons x)

theorem sumTotals_eq (l : List DailyRecord) :
    sumTotals l = (l.map (fun r => r.totalPointsEarned)).sum := by
  simpa using foldl_add_map (fun r : DailyRecord => r.totalPointsEarned) l 0

theorem sumTotals_perm {l₁ l₂ : List DailyRecord} (h : l₁.Perm l₂) :
    sumTotals l₁ = sumTotals l₂ := by
  rw [sumTotals_eq, sumTotals_eq]
  exact (h.map _).sum_eq

/-! ## Claim theorems -/

/-- Sample record handed to commit in witnesses: stale derived fields, one
completed and one uncompleted task. -/
def sampleCommitRecord : DailyRecord :=
  { date := "2024-01-01",
    tasks := [ { id := "1", name := "Morning Meditation", points := 10, completed := true },
               { id := "2", name := "Deep Work (2 Hours)", points := 20, completed := false } ],
    totalPointsEarned := 0,
    maxPointsPossible := 0,
    customQuote := none,
    reportComment := none,
    prayers := none }

/-- C1: after any mutation passes through commit (updateRecord), the committed
record stored at the selected date has totalPointsEarned equal to the sum of
points of completed tasks and maxPointsPossible equal to the sum of points of
all tasks; consequently every record in the mapping satisfies both sum
invariants after the commit, provided every record did before it. -/
theorem commit_invariant_preserved (s : AppState) (d : String) (r : DailyRecord)
    (h : ∀ q ∈ s.records, recordInvariant q.2) :
    lookupRecord (updateRecord s d r).records d = some (updateRecordFields r) ∧
    recordInvariant (updateRecordFields r) ∧
    ∀ q ∈ (updateRecord s d r).records, recordInvariant q.2 := by
  refine ⟨lookupRecord_insertRecord _ _ _, ⟨rfl, rfl⟩, ?_⟩
  intro q hq
  rcases mem_insertRecord hq with hmem | heq
  · exact h q hmem
  · rw [heq]
    exact ⟨rfl, rfl⟩

/-- Witness for C1: committing a record with stale derived sums into the
initial (empty) mapping. -/
theorem commit_invariant_preserved_check :
    (∀ q ∈ (initialState false).records, recordInvariant q.2) ∧
    (lookupRecord (updateRecord (initialState false) "2024-01-01" sampleCommitRecord).records
        "2024-01-01" = some (updateRecordFields sampleCommitRecord) ∧
     recordInvariant (updateRecordFields sampleCommitRecord) ∧
     ∀ q ∈ (updateRecord (initialState false) "2024-01-01" sampleCommitRecord).records,
       recordInvariant q.2) :=
  ⟨by simp [initialState], commit_invariant_preserved _ _ _ (by simp [initialState])⟩

/-- C2: the report comment computed at commit is the exact tier, under the
spec's tier table, of progressPercent = 100 * totalPointsEarned /
max(maxPointsPossible, 1) evaluated on the recomputed sums; and a record with
zero tasks has progress 0 (not 100) thanks to the denominator clamp. -/
theorem report_comment_matches_spec_tiers (r : DailyRecord) :
    (updateRecordFields r).reportComment =
      some (tierString (specTier
        (specProgressPercent (sumCompletedPoints r.tasks) (sumAllPoints r.tasks)))) ∧
    (r.tasks = [] →
      specProgressPercent (sumCompletedPoints r.tasks) (sumAllPoints r.tasks) = 0) := by
  constructor
  · show some (getReportComment
        (progressPerc (sumCompletedPoints r.tasks) (sumAllPoints r.tasks))) = _
    rw [progressPerc_eq_spec,
        getReportComment_eq_tierString _ (specProgressPercent_nonneg _ _)]
  · intro h
    rw [h]
    simp [sumCompletedPoints, sumAllPoints, specProgressPercent]

/-- Record with no tasks at all, for the zero-task progress clamp. -/
def emptyTasksRecord : DailyRecord :=
  { date := "2024-01-06",
    tasks := [],
    totalPointsEarned := 0,
    maxPointsPossible := 0,
    customQuote := none,
    reportComment := none,
    prayers := none }

/-- Witness for C2 at a record with an empty task list. -/
theorem report_comment_matches_spec_tiers_check :
    (updateRecordFields emptyTasksRecord).reportComment =
      some (tierString (specTier (specProgressPercent
        (sumCompletedPoints emptyTasksRecord.tasks) (sumAllPoints emptyTasksRecord.tasks)))) ∧
    specProgressPercent (sumCompletedPoints emptyTasksRecord.tasks)
      (sumAllPoints emptyTasksRecord.tasks) = 0 :=
  ⟨(report_comment_matches_spec_tiers emptyTasksRecord).1,
   (report_comment_matches_spec_tiers emptyTasksRecord).2 rfl⟩

/-- C4: toggling a task id that is absent from the current record's tasks is a
complete no-op: the whole application state, hence the record, the records
mapping and every derived field, is returned unchanged and no error is
raised (the function totally applies). -/
theorem toggle_absent_id_noop (s : AppState) (d taskId : String)
    (h : ∀ t ∈ (currentRecord s d).tasks, t.id ≠ taskId) :
    toggleTask s d taskId = s := by
  have hb : (currentRecord s d).tasks.any (fun t => t.id == taskId) = false := by
    rw [List.any_eq_false]
    intro t ht
    simpa using h t ht
  unfold toggleTask
  rw [if_neg (by simp [hb])]

/-- Witness for C4: toggling the unknown id zz on the initial state. -/
theorem toggle_absent_id_noop_check :
    (∀ t ∈ (currentRecord (initialState false) "2024-01-03").tasks, t.id ≠ "zz") ∧
    toggleTask (initialState false) "2024-01-03" "zz" = initialState false :=
  ⟨by decide, toggle_absent_id_noop _ _ _ (by decide)⟩

/-- C8: the confirmed destructive reset clears the whole records mapping and
zeroes both profile counters in the one state update it performs, and a
subsequent materialize of any date synthesizes a fresh template-derived
record. -/
theorem clearAllRecords_resets_everything (s : AppState) (d : String) :
    (clearAllRecords s).records = [] ∧
    (clearAllRecords s).profile.totalPoints = 0 ∧
    (clearAllRecords s).profile.streak = 0 ∧
    currentRecord (clearAllRecords s) d =
      { date := d,
        tasks := s.templates.map
          (fun t => { id := t.id, name := t.name, points := t.points, completed := false }),
        totalPointsEarned := 0,
        maxPointsPossible := s.templates.foldl (fun acc t => acc + t.points) 0,
        customQuote := none,
        reportComment := none,
        prayers := some { fajr := false, dhuhr := false, asr := false,
                          maghrib := false, isha := false } } :=
  ⟨rfl, rfl, rfl, rfl⟩

/-- C10: commit stores the recomputed record at the selected date and rewrites
only the three derived fields; date, customQuote, prayers and the task
sequence itself pass through unchanged. -/
theorem updateRecord_preserves_frame (s : AppState) (d : String) (r : DailyRecord) :
    lookupRecord (updateRecord s d r).records d = some (updateRecordFields r) ∧
    (updateRecordFields r).date = r.date ∧
    (updateRecordFields r).customQuote = r.customQuote ∧
    (updateRecordFields r).prayers = r.prayers ∧
    (updateRecordFields r).tasks = r.tasks :=
  ⟨lookupRecord_insertRecord _ _ _, rfl, rfl, rfl, rfl⟩

/-- C3 counterexample: on the initial state the viewed date 2024-01-01 has no
stored record and the quote effect is armed (guard true); once the fetched
quote lands, the date owns a records entry although no mutation operation
(toggle, edit, add, delete, set prayer) ever ran against it — so a merely
viewed date does not stay absent from the mapping. -/
theorem view_inserts_record_via_quote_fetch :
    lookupRecord (initialState false).records "2024-01-01" = none ∧
    fetchQuoteGuard (initialState false) "2024-01-01" = true ∧
    lookupRecord (applyFetchedQuote (initialState false) "2024-01-01"
        (currentRecord (initialState false) "2024-01-01")
        "Your only limit is your mind.").records "2024-01-01" ≠ none := by
  decide

/-- C3 amended: materializing through currentRecord is itself a pure read that
yields the synthesized record (one uncompleted instance per template, zero
points earned) for a date with no stored entry; but the view-triggered quote
fetch commits that record, extended with the fetched quote, into the mapping
when its response arrives, so viewing alone does create an entry. -/
theorem materialize_pure_but_fetch_commits (s : AppState) (d : String)
    (h : lookupRecord s.records d = none) :
    currentRecord s d =
      { date := d,
        tasks := s.templates.map
          (fun t => { id := t.id, name := t.name, points := t.points, completed := false }),
        totalPointsEarned := 0,
        maxPointsPossible := s.templates.foldl (fun acc t => acc + t.points) 0,
        customQuote := none,
        reportComment := none,
        prayers := some { fajr := false, dhuhr := false, asr := false,
                          maghrib := false, isha := false } } ∧
    ∀ q : String,
      lookupRecord (applyFetchedQuote s d (currentRecord s d) q).records d =
        some { currentRecord s d with customQuote := some q } := by
  constructor
  · unfold currentRecord
    rw [h]
  · intro q
    exact lookupRecord_insertRecord _ _ _

/-- Witness for C3 on the initial state at an unstored date. -/
theorem materialize_pure_but_fetch_commits_check :
    lookupRecord (initialState false).records "2024-01-02" = none ∧
    currentRecord (initialState false) "2024-01-02" =
      { date := "2024-01-02",
        tasks := (initialState false).templates.map
          (fun t => { id := t.id, name := t.name, points := t.points, completed := false }),
        totalPointsEarned := 0,
        maxPointsPossible := (initialState false).templates.foldl (fun acc t => acc + t.points) 0,
        customQuote := none,
        reportComment := none,
        prayers := some { fajr := false, dhuhr := false, asr := false,
                          maghrib := false, isha := false } } ∧
    lookupRecord (applyFetchedQuote (initialState false) "2024-01-02"
        (currentRecord (initialState false) "2024-01-02")
        "The secret of getting ahead is getting started.").records "2024-01-02" =
      some { currentRecord (initialState false) "2024-01-02" with
             customQuote := some "The secret of getting ahead is getting started." } :=
  ⟨rfl,
   (materialize_pure_but_fetch_commits (initialState false) "2024-01-02" rfl).1,
   (materialize_pure_but_fetch_commits (initialState false) "2024-01-02" rfl).2
     "The secret of getting ahead is getting started."⟩

/-- Restatement of the present-id branch of toggleTask. -/
theorem toggleTask_of_mem (s : AppState) (d taskId : String)
    (h : (currentRecord s d).tasks.any (fun t => t.id == taskId) = true) :
    toggleTask s d taskId =
      updateRecord s d
        { currentRecord s d with tasks := toggleById (currentRecord s d).tasks taskId } := by
  unfold toggleTask
  rw [if_pos h]

/-- C5 counterexample: on a freshly materialized (never committed) record the
reportComment is unset; toggling task 1 twice recomputes and stores a comment,
so the derived reportComment does not return to its pre-toggle value. -/
theorem double_toggle_changes_fresh_report_comment :
    (currentRecord (initialState false) "2024-01-05").reportComment = none ∧
    (currentRecord (initialState false) "2024-01-05").tasks.any
      (fun t => t.id == "1") = true ∧
    (currentRecord (toggleTask (toggleTask (initialState false) "2024-01-05" "1")
        "2024-01-05" "1") "2024-01-05").reportComment ≠
      (currentRecord (initialState false) "2024-01-05").reportComment := by
  decide

/-- C5 amended: when the current record has already passed through commit (its
derived fields are exactly what updateRecordFields computes, as holds for
every stored committed record), toggling a present task twice returns
totalPointsEarned, maxPointsPossible and reportComment to their pre-toggle
values. -/
theorem double_toggle_restores_committed_fields (s : AppState) (d taskId : String)
    (hmem : (currentRecord s d).tasks.any (fun t => t.id == taskId) = true)
    (hcom : updateRecordFields (currentRecord s d) = currentRecord s d) :
    (currentRecord (toggleTask (toggleTask s d taskId) d taskId) d).totalPointsEarned =
      (currentRecord s d).totalPointsEarned ∧
    (currentRecord (toggleTask (toggleTask s d taskId) d taskId) d).maxPointsPossible =
      (currentRecord s d).maxPointsPossible ∧
    (currentRecord (toggleTask (toggleTask s d taskId) d taskId) d).reportComment =
      (currentRecord s d).reportComment := by
  have h2 : currentRecord (toggleTask s d taskId) d =
      updateRecordFields
        { currentRecord s d with tasks := toggleById (currentRecord s d).tasks taskId } := by
    rw [toggleTask_of_mem s d taskId hmem, currentRecord_updateRecord]
  have hmem2 : (currentRecord (toggleTask s d taskId) d).tasks.any
      (fun t => t.id == taskId) = true := by
    rw [h2]
    show (toggleById (currentRecord s d).tasks taskId).any (fun t => t.id == taskId) = true
    rw [toggleById_any]
    exact hmem
  have h4 : currentRecord (toggleTask (toggleTask s d taskId) d taskId) d =
      updateRecordFields
        { currentRecord (toggleTask s d taskId) d with
          tasks := toggleById (currentRecord (toggleTask s d taskId) d).tasks taskId } := by
    rw [toggleTask_of_mem _ d taskId hmem2, currentRecord_updateRecord]
  have htasks : toggleById (currentRecord (toggleTask s d taskId) d).tasks taskId =
      (currentRecord s d).tasks := by
    rw [h2]
    show toggleById (toggleById (currentRecord s d).tasks taskId) taskId = _
    exact toggleById_toggleById taskId _
  rw [h4, htasks]
  refine ⟨?_, ?_, ?_⟩
  · conv_rhs => rw [← hcom]
    rfl
  · conv_rhs => rw [← hcom]
    rfl
  · conv_rhs => rw [← hcom]
    rfl

/-- State whose single stored record for 2024-01-04 has been through commit. -/
def committedToggleState : AppState :=
  { profile := INITIAL_PROFILE,
    templates := DEFAULT_TEMPLATES,
    records := [("2024-01-04",
      updateRecordFields
        { date := "2024-01-04",
          tasks := [ { id := "1", name := "Morning Meditation", points := 10,
                       completed := true } ],
          totalPointsEarned := 0,
          maxPointsPossible := 0,
          customQuote := none,
          reportComment := none,
          prayers := none })],
    darkMode := false }

/-- Witness for C5 on a committed single-task record. -/
theorem double_toggle_restores_committed_fields_check :
    (currentRecord committedToggleState "2024-01-04").tasks.any
      (fun t => t.id == "1") = true ∧
    updateRecordFields (currentRecord committedToggleState "2024-01-04") =
      currentRecord committedToggleState "2024-01-04" ∧
    ((currentRecord (toggleTask (toggleTask committedToggleState "2024-01-04" "1")
        "2024-01-04" "1") "2024-01-04").totalPointsEarned =
      (currentRecord committedToggleState "2024-01-04").totalPointsEarned ∧
     (currentRecord (toggleTask (toggleTask committedToggleState "2024-01-04" "1")
        "2024-01-04" "1") "2024-01-04").maxPointsPossible =
      (currentRecord committedToggleState "2024-01-04").maxPointsPossible ∧
     (currentRecord (toggleTask (toggleTask committedToggleState "2024-01-04" "1")
        "2024-01-04" "1") "2024-01-04").reportComment =
      (currentRecord committedToggleState "2024-01-04").reportComment) :=
  ⟨by decide, updateRecordFields_idem _,
   double_toggle_restores_committed_fields committedToggleState "2024-01-04" "1"
     (by decide) (updateRecordFields_idem _)⟩

/-- Committed record worth 10 points for the statistics counterexample. -/
def statRecordA : DailyRecord :=
  updateRecordFields
    { date := "2024-02-01",
      tasks := [ { id := "1", name := "Morning Meditation", points := 10,
                   completed := true } ],
      totalPointsEarned := 0,
      maxPointsPossible := 0,
      customQuote := none,
      reportComment := none,
      prayers := none }

/-- Committed record worth 15 points for the statistics counterexample. -/
def statRecordB : DailyRecord :=
  updateRecordFields
    { date := "2024-02-02",
      tasks := [ { id := "3", name := "Physical Exercise", points := 15,
                   completed := true } ],
      totalPointsEarned := 0,
      maxPointsPossible := 0,
      customQuote := none,
      reportComment := none,
      prayers := none }

/-- State holding the two committed records above. -/
def twoRecordState : AppState :=
  { profile := INITIAL_PROFILE,
    templates := DEFAULT_TEMPLATES,
    records := [("2024-02-01", statRecordA), ("2024-02-02", statRecordB)],
    darkMode := false }

/-- C6 counterexample: over records scoring 10 and 15 the arithmetic mean is
25/2, yet avgScore is the Math.round value 13, so averageScore does not equal
the arithmetic mean. -/
theorem avgScore_rounds_mean_counterexample :
    (avgScore twoRecordState : ℚ) ≠
      (sumTotals (twoRecordState.records.map Prod.snd) : ℚ) /
        ((twoRecordState.records.map Prod.snd).length : ℚ) := by
  have h1 : sumTotals (twoRecordState.records.map Prod.snd) = 25 := by decide
  have h2 : (twoRecordState.records.map Prod.snd).length = 2 := by decide
  have hlen : (sortByDate (twoRecordState.records.map Prod.snd)).length = 2 := by decide
  have hsum : sumTotals (sortByDate (twoRecordState.records.map Prod.snd)) = 25 := by
    decide
  have h3 : avgScore twoRecordState = 13 := by
    unfold avgScore
    rw [hlen, hsum]
    norm_num [jsRound]
  rw [h1, h2, h3]
  norm_num

/-- C6 amended: averageScore equals the arithmetic mean of totalPointsEarned
over all stored records rounded to the nearest integer (halves up, as
Math.round does), and equals 0 when the mapping is empty. -/
theorem avgScore_eq_rounded_mean (s : AppState) :
    avgScore s =
      if s.records.length = 0 then 0
      else jsRound ((sumTotals (s.records.map Prod.snd) : ℚ) / (s.records.length : ℚ)) := by
  have hperm := sortByDate_perm (s.records.map Prod.snd)
  have hlen : (sortByDate (s.records.map Prod.snd)).length = s.records.length := by
    rw [hperm.length_eq, List.length_map]
  have hsum : sumTotals (sortByDate (s.records.map Prod.snd)) =
      sumTotals (s.records.map Prod.snd) := sumTotals_perm hperm
  unfold avgScore
  rw [hlen, hsum]

/-- C7 counterexample: the id string i is a value the generator
Math.random().toString(36).substr(2, 9) can produce (when Math.random()
returns 0.5 its base-36 expansion is 0.i, so the substring is i), and addTask
never checks the generated id against ids already in the record: after a
previous addTask already placed id i in the record, a second draw of i leaves
two tasks with the same id, so the generated id is not guaranteed distinct
from the ids already present. -/
theorem addTask_duplicate_id_counterexample :
    (currentRecord (addTask (initialState false) "2024-03-01" "i") "2024-03-01").tasks.any
      (fun t => t.id == "i") = true ∧
    ((currentRecord (addTask (addTask (initialState false) "2024-03-01" "i")
        "2024-03-01" "i") "2024-03-01").tasks.filter (fun t => t.id == "i")).length = 2 := by
  decide

/-- C7 amended: addTask appends one new TaskInstance carrying the externally
generated id, the fixed name and 10 points, with completed = false, and
commits; the generated id is used as-is, so uniqueness within the record holds
only when the random draw happens to avoid the ids already present. -/
theorem addTask_appends_with_given_id (s : AppState) (d newId : String) :
    (currentRecord (addTask s d newId) d).tasks =
      (currentRecord s d).tasks ++
        [{ id := newId, name := "New Objective 💎", points := 10, completed := false }] := by
  unfold addTask
  rw [currentRecord_updateRecord]
  rfl

/-- Snapshot the quote effect captures when it launches on the initial state:
the synthesized record for 2024-04-01, which has no quote. -/
def launchSnapshot : DailyRecord :=
  currentRecord (initialState false) "2024-04-01"

/-- State after the user typed their own quote while the fetch was in
flight. -/
def userQuotedState : AppState :=
  setCustomQuote (initialState false) "2024-04-01" "my own words"

/-- C9: the guard is checked only when the effect launches; on completion the
closure writes the stale launch-time snapshot plus the fetched quote over
whatever the record holds now.  Concretely: the fetch launches on the empty
date (guard true), the user then stores the quote my own words, and when the
response lands the stored record's quote becomes the fetched string instead of
staying untouched — the late response is merged over newer data, not
discarded. -/
theorem late_quote_response_overwrites_newer_quote :
    fetchQuoteGuard (initialState false) "2024-04-01" = true ∧
    (currentRecord userQuotedState "2024-04-01").customQuote = some "my own words" ∧
    (currentRecord (applyFetchedQuote userQuotedState "2024-04-01" launchSnapshot
        "Focus on being productive instead of busy.") "2024-04-01").customQuote =
      some "Focus on being productive instead of busy." ∧
    (currentRecord (applyFetchedQuote userQuotedState "2024-04-01" launchSnapshot
        "Focus on being productive instead of busy.") "2024-04-01").customQuote ≠
      some "my own words" := by
  decide
